import Mathlib

/-!
Verification of the attribute-to-props bridge and custom-element lifecycle of
the `regis-tag-me` repository.

The development shallowly embeds the TypeScript sources:

* `src/utility/helper.ts` — `toKebabCase`, `transformBoolean` (earlier
  revision) and `attributeBoolean` (current revision);
* `src/WebComponent/registerWebComponent.tsx` — the custom-element class
  (`connectedCallback`, `disconnectedCallback`, `attributeChangedCallback`,
  `parseAttributes`) and the registration guard, modelled as explicit state
  passing over an `ElementState` record with a node-id allocator.

Character classes follow the source regexes `[a-z]` / `[A-Z]`, which are
ASCII-only; Lean core's `Char.isLower` / `Char.isUpper` are the ASCII tests,
so they coincide with the regex semantics.
-/

namespace RegisTagMe

/-! ### `toKebabCase` (utility/helper.ts, current two-rule revision)

The source is
`input.replaceAll(/([a-z])([A-Z])/gu, '$1-$2')
      .replaceAll(/([A-Z])([A-Z][a-z])/gu, '$1-$2')
      .toLowerCase()`.

A global regex replacement scans left to right; a match consumes the matched
characters, and scanning resumes after them, so matches never overlap.  The
two passes are embedded as structural recursions on the character list. -/

/-- First pass: `replaceAll(/([a-z])([A-Z])/gu, '$1-$2')`.  A match is a
lowercase letter followed by an uppercase letter; the replacement keeps both
and inserts `'-'` between them, and the scan resumes after the match. -/
def kebabFirstPass : List Char → List Char
  | c₁ :: c₂ :: rest =>
    if c₁.isLower && c₂.isUpper then c₁ :: '-' :: c₂ :: kebabFirstPass rest
    else c₁ :: kebabFirstPass (c₂ :: rest)
  | l => l

/-- Second pass: `replaceAll(/([A-Z])([A-Z][a-z])/gu, '$1-$2')`.  A match is
an uppercase letter followed by an uppercase-then-lowercase pair; the
replacement inserts `'-'` after the first character, and the scan resumes
after the three matched characters. -/
def kebabSecondPass : List Char → List Char
  | c₁ :: c₂ :: c₃ :: rest =>
    if c₁.isUpper && c₂.isUpper && c₃.isLower then
      c₁ :: '-' :: c₂ :: c₃ :: kebabSecondPass rest
    else c₁ :: kebabSecondPass (c₂ :: c₃ :: rest)
  | l => l

/-- `toKebabCase` from `utility/helper.ts`: both regex passes followed by
`toLowerCase()` (ASCII case mapping, as in the source's usage on
identifier-style names). -/
def toKebabCase (input : String) : String :=
  String.mk ((kebabSecondPass (kebabFirstPass input.data)).map Char.toLower)

/-! ### Boolean attribute transforms (utility/helper.ts)

`transformBoolean` is the earlier helper:
`if (input === 'false') return false; if (input === '') return true;
 return Boolean(input);`
where `Boolean(s)` on a string is `true` iff `s` is non-empty.

`attributeBoolean` is the current exported zod schema
`z.string().default('false').transform((value) => value === '' || value === 'true')`:
an absent input (`undefined`) is replaced by the declared default `'false'`
before the transform runs. -/

/-- `transformBoolean` from the earlier `utility/helper.ts` revision. -/
def transformBoolean (input : String) : Bool :=
  if input = "false" then false
  else if input = "" then true
  else input != ""

/-- `attributeBoolean` from the current `utility/helper.ts`: the input is the
raw attribute string, or `none` when the attribute is absent (zod then applies
the declared default `"false"`); the transform tests the exact strings `""`
and `"true"`. -/
def attributeBoolean (input : Option String) : Bool :=
  let value := input.getD "false"
  value == "" || value == "true"

end RegisTagMe

namespace RegisTagMe

/-! ### The attribute bridge and element lifecycle
(`src/WebComponent/registerWebComponent.tsx`, StandardSchemaV1 revision)

A per-attribute validator is the black-box capability
`schema[key]['~standard'].validate(input)`; its outcome is either a `Promise`
(asynchronous validation), a result carrying `issues`, or a result carrying a
typed `value`.  The input is the raw attribute string, or `undefined`
(embedded as `none`) when `getAttribute` returned `null`
(`attributeValue ?? undefined`). -/

/-- Outcome of `validate(input)` for one schema entry: a `Promise`, a result
with `issues` (modelled as the list of issue messages, which
`parseAttributes` serializes into the thrown error), or a success value. -/
inductive ValidateResult (α : Type) where
  | promise : ValidateResult α
  | failure (issues : List String) : ValidateResult α
  | success (value : α) : ValidateResult α
deriving DecidableEq

/-- One schema entry: the validator capability of a StandardSchemaV1 schema,
taking the raw attribute string (`none` when the attribute is absent). -/
structure AttributeSchemaEntry (α : Type) where
  validate : Option String → ValidateResult α

/-- An attribute schema: `Object.keys` order is the list order; keys are
unique in a JS object literal. -/
abbrev AttributeSchema (α : Type) : Type := List (String × AttributeSchemaEntry α)

/-- The two exceptions `parseAttributes` can throw:
`TypeError('Schema validation must be synchronous')` when a validator returns
a `Promise`, and `Error(JSON.stringify(result.issues, null, 2))` when a
validator reports issues (the error carries the serialized issue list). -/
inductive ParseError where
  | synchronousValidationRequired : ParseError
  | validationFailed (issues : List String) : ParseError
deriving DecidableEq

/-- `parseAttributes` of the `WebComponent` class: iterate over the schema
keys in order; for each key read the raw value under the derived kebab-case
DOM name via the reader (`this.getAttribute`), pass it to the validator
(`attributeValue ?? undefined` makes an absent attribute `none`), throw on a
`Promise` or on issues, otherwise record the output value under the logical
key.  (The `hasOwnProperty` guard in the source is always true for a key
produced by `Object.keys` and has no effect.) -/
def parseAttributes {α : Type} :
    AttributeSchema α → (String → Option String) → Except ParseError (List (String × α))
  | [], _ => .ok []
  | (key, entry) :: rest, getAttribute =>
    match entry.validate (getAttribute (toKebabCase key)) with
    | .promise => .error .synchronousValidationRequired
    | .failure issues => .error (.validationFailed issues)
    | .success v => (parseAttributes rest getAttribute).map (fun out => (key, v) :: out)

/-- `observedAttributes` of the `WebComponent` class:
`Object.keys(attributeSchema).map(toKebabCase)`. -/
def observedAttributes {α : Type} (schema : AttributeSchema α) : List String :=
  (schema.map Prod.fst).map toKebabCase

/-- The `shadowDOM` registration option: a fixed boolean or a function of the
decoded attribute record. -/
inductive ShadowOption (α : Type) where
  | flag (b : Bool) : ShadowOption α
  | ofAttributes (f : List (String × α) → Bool) : ShadowOption α

/-- Registration options (the `mixin` option is modelled by the
`super*Calls` counters of `ElementState`, which count how often the chained
mixin hooks were invoked). -/
structure RegisterOptions (α : Type) where
  shadowDOM : Option (ShadowOption α) := none

/-- `hasShadowDOM` closure from `registerWebComponent`:
`typeof options?.shadowDOM === 'function' ? options.shadowDOM(attributes)
 : (options?.shadowDOM ?? false)`. -/
def hasShadowDOM {α : Type} (opts : RegisterOptions α) (attributes : List (String × α)) : Bool :=
  match opts.shadowDOM with
  | some (.ofAttributes f) => f attributes
  | some (.flag b) => b
  | none => false

/-- One React root created by `createRoot(container)`: the id of its container
node, the list of attribute records passed to `render` (in order), and how
often `unmount` was called on it. -/
structure RootObj (α : Type) where
  container : Nat
  renders : List (List (String × α))
  unmountCount : Nat
deriving DecidableEq

/-- The observable state of one custom-element instance together with the
host document.  DOM nodes created by `document.createElement` are numbered by
the allocator `nextNodeId`; `hostChildren` / `shadowChildren` are the ids
appended directly to the element / to its shadow root.  `roots` lists every
React root ever created for the instance in creation order; the `root` field
of the class always refers to the most recently created one (it is assigned
on every connect and never cleared).  The `super*Calls` counters model the
optional chained mixin hooks `super.connectedCallback?.()` etc. -/
structure ElementState (α : Type) where
  attrs : List (String × String)
  connected : Bool
  nextNodeId : Nat
  mountingPoint : Option Nat
  stylesMountingPoint : Option Nat
  roots : List (RootObj α)
  shadowDOM : Option Bool
  shadowRoot : Bool
  attachShadowCalls : Nat
  hostChildren : List Nat
  shadowChildren : List Nat
  superConnectedCalls : Nat
  superDisconnectedCalls : Nat
  superAttributeChangedCalls : Nat
deriving DecidableEq

/-- A freshly constructed element carrying the given DOM attributes: not
connected, no mounting point, no root, no shadow root, no children. -/
def initialElement {α : Type} (attrs : List (String × String)) : ElementState α :=
  { attrs := attrs
    connected := false
    nextNodeId := 0
    mountingPoint := none
    stylesMountingPoint := none
    roots := []
    shadowDOM := none
    shadowRoot := false
    attachShadowCalls := 0
    hostChildren := []
    shadowChildren := []
    superConnectedCalls := 0
    superDisconnectedCalls := 0
    superAttributeChangedCalls := 0 }

/-- `this.getAttribute(name)`: DOM attribute lookup by name (`none` models
`null` for an absent attribute). -/
def domGetAttribute {α : Type} (s : ElementState α) : String → Option String :=
  fun name => List.lookup name s.attrs

/-- `setAttribute(name, value)` on the attribute list: overwrite an existing
entry or append a new one. -/
def setAttr : List (String × String) → String → String → List (String × String)
  | [], name, value => [(name, value)]
  | (n, v) :: rest, name, value =>
    if n = name then (name, value) :: rest else (n, v) :: setAttr rest name value

/-- Apply a function to the last element of a list (the list unchanged when
empty).  Models a mutation of the object currently referenced by `this.root`
(optional chaining: a no-op when no root was ever created). -/
def updateLast {β : Type} : List β → (β → β) → List β
  | [], _ => []
  | [x], f => [f x]
  | x :: y :: rest, f => x :: updateLast (y :: rest) f

/-- `this.root?.render(...)`: push the attribute record onto the current
(most recently created) root's render list. -/
def renderTo {α : Type} (s : ElementState α) (record : List (String × α)) : ElementState α :=
  { s with roots := updateLast s.roots (fun r => { r with renders := r.renders ++ [record] }) }

/-- `connectedCallback`: decode the attributes (a thrown `ParseError` leaves
the state untouched, since `parseAttributes` is the first statement and
mutates nothing); evaluate `hasShadowDOM` on the decoded record; attach a
shadow root when none exists and the decision is true; create the `#root` and
`#styles` div nodes; assign `mountingPoint`, create a fresh React root on the
`#root` node, assign `stylesMountingPoint`; append styles node then root node
into the shadow root when present, else into the element; render the decoded
record; finally invoke the chained mixin hook. -/
def connectedCallback {α : Type} (schema : AttributeSchema α) (opts : RegisterOptions α)
    (s : ElementState α) : ElementState α × Option ParseError :=
  match parseAttributes schema (domGetAttribute s) with
  | .error e => (s, some e)
  | .ok parsedAttributes =>
    let sd := hasShadowDOM opts parsedAttributes
    let s₁ := { s with shadowDOM := some sd }
    let s₂ := if !s₁.shadowRoot && sd then
        { s₁ with shadowRoot := true, attachShadowCalls := s₁.attachShadowCalls + 1 }
      else s₁
    let rootId := s₂.nextNodeId
    let stylesId := s₂.nextNodeId + 1
    let s₃ := { s₂ with
      nextNodeId := s₂.nextNodeId + 2
      mountingPoint := some rootId
      stylesMountingPoint := some stylesId
      roots := s₂.roots ++ [({ container := rootId, renders := [], unmountCount := 0 } : RootObj α)] }
    let s₄ := if s₃.shadowRoot then
        { s₃ with shadowChildren := s₃.shadowChildren ++ [stylesId, rootId] }
      else
        { s₃ with hostChildren := s₃.hostChildren ++ [stylesId, rootId] }
    let s₅ := renderTo s₄ parsedAttributes
    ({ s₅ with superConnectedCalls := s₅.superConnectedCalls + 1 }, none)

/-- `disconnectedCallback`: `this.root?.unmount()` then the chained mixin
hook; nothing else is touched. -/
def disconnectedCallback {α : Type} (s : ElementState α) : ElementState α :=
  let s₁ := { s with roots := updateLast s.roots (fun r => { r with unmountCount := r.unmountCount + 1 }) }
  { s₁ with superDisconnectedCalls := s₁.superDisconnectedCalls + 1 }

/-- `attributeChangedCallback`: return immediately when the element is not
connected or has no mounting point yet (the chained mixin hook is then not
invoked either); otherwise decode and render (a thrown `ParseError`
propagates, leaving the state untouched and skipping the mixin hook), then
invoke the chained mixin hook. -/
def attributeChangedCallback {α : Type} (schema : AttributeSchema α)
    (s : ElementState α) : ElementState α × Option ParseError :=
  if !s.connected || s.mountingPoint.isNone then (s, none)
  else
    match parseAttributes schema (domGetAttribute s) with
    | .error e => (s, some e)
    | .ok record =>
      let s₁ := renderTo s record
      ({ s₁ with superAttributeChangedCalls := s₁.superAttributeChangedCalls + 1 }, none)

/-- Host action: attach the element to the document (`isConnected` becomes
true) and run `connectedCallback`. -/
def hostConnect {α : Type} (schema : AttributeSchema α) (opts : RegisterOptions α)
    (s : ElementState α) : ElementState α × Option ParseError :=
  connectedCallback schema opts { s with connected := true }

/-- Host action: detach the element (`isConnected` becomes false) and run
`disconnectedCallback`. -/
def hostDisconnect {α : Type} (s : ElementState α) : ElementState α :=
  disconnectedCallback { s with connected := false }

/-- Host action: set a DOM attribute; the host invokes
`attributeChangedCallback` only when the name is in `observedAttributes`. -/
def hostSetAttribute {α : Type} (schema : AttributeSchema α) (name value : String)
    (s : ElementState α) : ElementState α × Option ParseError :=
  let s' := { s with attrs := setAttr s.attrs name value }
  if (observedAttributes schema).contains name then attributeChangedCallback schema s'
  else (s', none)

/-! ### Tag registry (`customElements`) -/

/-- The process-wide custom-element registry: the tags defined so far and how
often `customElements.define` was invoked. -/
structure Registry where
  defined : List String
  defineCalls : Nat
deriving DecidableEq

/-- `customElements.get(tag)` (truthiness of the result). -/
def customElementsGet (r : Registry) (tag : String) : Bool :=
  r.defined.contains tag

/-- `customElements.define(tag, WebComponent)`. -/
def customElementsDefine (r : Registry) (tag : String) : Registry :=
  { defined := r.defined ++ [tag], defineCalls := r.defineCalls + 1 }

/-- The registration step of `registerWebComponent`:
`if (!customElements.get(tagName)) customElements.define(tagName, WebComponent)`
— the registry is queried before defining; no failure is caught. -/
def registerWebComponent (tag : String) (r : Registry) : Registry :=
  if customElementsGet r tag then r else customElementsDefine r tag

/-! ### Demonstration schemas used by the concrete witnesses -/

/-- A validator that always reports issues, for exercising the failure path. -/
def alwaysFailEntry : AttributeSchemaEntry String :=
  ⟨fun _ => .failure ["boom"]⟩

/-- A validator that returns a `Promise`, for exercising the async path. -/
def asyncEntry : AttributeSchemaEntry String :=
  ⟨fun _ => .promise⟩

/-- A validator accepting any input unchanged (like `z.string().optional()`:
an absent attribute decodes to `undefined`). -/
def passThroughEntry : AttributeSchemaEntry (Option String) :=
  ⟨fun v => .success v⟩

/-- A validator with a schema-level default (like
`z.string().default("Guest")`): an absent attribute decodes to `"Guest"`. -/
def defaultGuestEntry : AttributeSchemaEntry (Option String) :=
  ⟨fun v => .success (some (v.getD "Guest"))⟩

/-- A boolean attribute validator built from `attributeBoolean`. -/
def useShadowEntry : AttributeSchemaEntry Bool :=
  ⟨fun v => .success (attributeBoolean v)⟩

/-- Demonstration schema with a single boolean `useShadow` attribute. -/
def demoShadowSchema : AttributeSchema Bool :=
  [("useShadow", useShadowEntry)]

/-- Demonstration options: shadow DOM decided by the decoded `useShadow`
attribute. -/
def demoShadowOpts : RegisterOptions Bool :=
  { shadowDOM := some (.ofAttributes (fun attributes =>
      (List.lookup "useShadow" attributes).getD false)) }

/-! ### Helper lemmas -/

/-- When every validator of a schema prefix succeeds, a parse error of the
remaining schema is the parse error of the whole schema. -/
theorem parseAttributes_append_error {α : Type} (pre rest : AttributeSchema α)
    (reader : String → Option String) (e : ParseError)
    (hpre : ∀ p ∈ pre, ∃ v, p.2.validate (reader (toKebabCase p.1)) = ValidateResult.success v)
    (hrest : parseAttributes rest reader = .error e) :
    parseAttributes (pre ++ rest) reader = .error e := by
  induction pre with
  | nil => simpa using hrest
  | cons p pre ih =>
    obtain ⟨key, entry⟩ := p
    obtain ⟨v, hv⟩ := hpre (key, entry) (List.mem_cons_self _ _)
    have hv' : entry.validate (reader (toKebabCase key)) = ValidateResult.success v := hv
    have hrec := ih fun q hq => hpre q (List.mem_cons_of_mem _ hq)
    simp [parseAttributes, hv', hrec, Except.map]

/-- A successful decode pairs the schema keys, in order, with exactly the
validators' output values on the raw attribute strings read under the derived
kebab-case DOM names. -/
theorem parseAttributes_ok_forall {α : Type} (schema : AttributeSchema α)
    (reader : String → Option String) (out : List (String × α))
    (h : parseAttributes schema reader = .ok out) :
    List.Forall₂ (fun p q => p.1 = q.1 ∧
      p.2.validate (reader (toKebabCase p.1)) = ValidateResult.success q.2) schema out := by
  induction schema generalizing out with
  | nil =>
    simp only [parseAttributes] at h
    obtain rfl : ([] : List (String × α)) = out := by injection h
    exact List.Forall₂.nil
  | cons p rest ih =>
    obtain ⟨key, entry⟩ := p
    simp only [parseAttributes] at h
    cases hv : entry.validate (reader (toKebabCase key)) with
    | promise => rw [hv] at h; simp at h
    | failure issues => rw [hv] at h; simp at h
    | success v =>
      rw [hv] at h
      cases hr : parseAttributes rest reader with
      | error e => rw [hr] at h; simp [Except.map] at h
      | ok o =>
        rw [hr] at h
        simp only [Except.map, Except.ok.injEq] at h
        subst h
        exact List.Forall₂.cons ⟨rfl, hv⟩ (ih o hr)

/-- `updateLast` on a list ending in `x` rewrites only that `x`. -/
theorem updateLast_append_singleton {β : Type} (l : List β) (x : β) (f : β → β) :
    updateLast (l ++ [x]) f = l ++ [f x] := by
  induction l with
  | nil => rfl
  | cons y l ih =>
    cases l with
    | nil => rfl
    | cons z l =>
      simp only [List.cons_append, updateLast, List.append_eq] at ih ⊢
      rw [ih]

/-- Mapping a projection untouched by the update commutes with `updateLast`. -/
theorem map_updateLast {β γ : Type} (l : List β) (f : β → γ) (g : β → β)
    (h : ∀ x, f (g x) = f x) : (updateLast l g).map f = l.map f := by
  induction l with
  | nil => rfl
  | cons y l ih =>
    cases l with
    | nil => simp [updateLast, h]
    | cons z l =>
      simp only [updateLast, List.map_cons] at ih ⊢
      rw [ih]

/-- Setting an attribute on a disconnected element only updates the
attribute list: the lifecycle callback returns before doing anything. -/
theorem hostSetAttribute_disconnected {α : Type} (schema : AttributeSchema α)
    (name value : String) (s : ElementState α) (h : s.connected = false) :
    hostSetAttribute schema name value s =
      ({ s with attrs := setAttr s.attrs name value }, none) := by
  unfold hostSetAttribute attributeChangedCallback
  split <;> simp [h]

/-- `attributeChangedCallback` never touches the shadow boundary, the stored
isolation decision, or the attach-shadow count. -/
theorem attributeChangedCallback_preserves_shadow {α : Type} (schema : AttributeSchema α)
    (s : ElementState α) :
    (attributeChangedCallback schema s).1.shadowRoot = s.shadowRoot ∧
    (attributeChangedCallback schema s).1.shadowDOM = s.shadowDOM ∧
    (attributeChangedCallback schema s).1.attachShadowCalls = s.attachShadowCalls := by
  unfold attributeChangedCallback
  split
  · exact ⟨rfl, rfl, rfl⟩
  · split
    · exact ⟨rfl, rfl, rfl⟩
    · exact ⟨rfl, rfl, rfl⟩

/-- Explicit characterization of a successful `connectedCallback`. -/
theorem connectedCallback_ok {α : Type} (schema : AttributeSchema α)
    (opts : RegisterOptions α) (s : ElementState α) (parsed : List (String × α))
    (h : parseAttributes schema (domGetAttribute s) = .ok parsed) :
    connectedCallback schema opts s =
      ({ s with
          shadowDOM := some (hasShadowDOM opts parsed)
          shadowRoot := s.shadowRoot || hasShadowDOM opts parsed
          attachShadowCalls := s.attachShadowCalls +
            (if !s.shadowRoot && hasShadowDOM opts parsed then 1 else 0)
          nextNodeId := s.nextNodeId + 2
          mountingPoint := some s.nextNodeId
          stylesMountingPoint := some (s.nextNodeId + 1)
          roots := s.roots ++
            [{ container := s.nextNodeId, renders := [parsed], unmountCount := 0 }]
          hostChildren := s.hostChildren ++
            (if s.shadowRoot || hasShadowDOM opts parsed then []
             else [s.nextNodeId + 1, s.nextNodeId])
          shadowChildren := s.shadowChildren ++
            (if s.shadowRoot || hasShadowDOM opts parsed then [s.nextNodeId + 1, s.nextNodeId]
             else [])
          superConnectedCalls := s.superConnectedCalls + 1 }, none) := by
  unfold connectedCallback
  rw [h]
  cases hsr : s.shadowRoot <;> cases hsd : hasShadowDOM opts parsed <;>
    simp [renderTo, updateLast_append_singleton, hsr, hsd]

/-- C1: the DOM-name derivation `toKebabCase` inserts a hyphen at every
lowercase-to-uppercase boundary, and segments an uppercase run so that an
acronym hyphenates between the acronym and the trailing word; in particular
`toKebabCase "firstName" = "first-name"` and
`toKebabCase "useABTest" = "use-ab-test"` (the acronym `AB` stays joined). -/
theorem C1_toKebabCase_boundaries :
    (∀ c₁ c₂ : Char, c₁.isLower = true → c₂.isUpper = true →
      toKebabCase (String.mk [c₁, c₂]) = String.mk [c₁.toLower, '-', c₂.toLower]) ∧
    toKebabCase "firstName" = "first-name" ∧
    toKebabCase "useABTest" = "use-ab-test" ∧
    toKebabCase "camelCaseString" = "camel-case-string" := by
  refine ⟨?_, by decide, by decide, by decide⟩
  intro c₁ c₂ h₁ h₂
  have hdash₁ : ('-').isUpper = false := by decide
  have hdash₂ : ('-').toLower = '-' := by decide
  simp [toKebabCase, kebabFirstPass, kebabSecondPass, h₁, h₂, hdash₁, hdash₂]

/-- Witness for C1: the general boundary clause applied at `'a'`, `'B'`. -/
theorem C1_toKebabCase_boundaries_witness :
    toKebabCase (String.mk ['a', 'B']) = String.mk ['a'.toLower, '-', 'B'.toLower] :=
  C1_toKebabCase_boundaries.1 'a' 'B' (by decide) (by decide)

/-- C8 counterexample: the claim says the canonical boolean-from-attribute
transform maps every non-empty string other than `"true"`/`"false"` to `true`,
but the exported `attributeBoolean` schema maps the non-empty string `"yes"`
to `false`. -/
theorem C8_attributeBoolean_counterexample :
    attributeBoolean (some "yes") = false ∧ "yes" ≠ "" ∧ "yes" ≠ "true" := by
  decide

/-- C8 (amended): the current canonical transform `attributeBoolean` maps
`""` to `true`, exact `"true"` to `true`, exact `"false"` to `false`, an
absent attribute (declared default `"false"`) to `false`, and every other
non-empty string to `false`; the earlier `transformBoolean` helper mapped
every non-empty string other than `"false"` to `true`. -/
theorem C8_boolean_convention :
    attributeBoolean (some "") = true ∧
    attributeBoolean (some "true") = true ∧
    attributeBoolean (some "false") = false ∧
    attributeBoolean none = false ∧
    (∀ s : String, s ≠ "" → s ≠ "true" → attributeBoolean (some s) = false) ∧
    (∀ s : String, s ≠ "" → s ≠ "false" → transformBoolean s = true) := by
  refine ⟨by decide, by decide, by decide, by decide, ?_, ?_⟩
  · intro s h₁ h₂
    simp [attributeBoolean, h₁, h₂]
  · intro s h₁ h₂
    simp [transformBoolean, h₁, h₂]

/-- Witness for C8 (amended): both universal clauses applied at `"yes"`. -/
theorem C8_boolean_convention_witness :
    attributeBoolean (some "yes") = false ∧ transformBoolean "yes" = true :=
  ⟨C8_boolean_convention.2.2.2.2.1 "yes" (by decide) (by decide),
   C8_boolean_convention.2.2.2.2.2 "yes" (by decide) (by decide)⟩

/-- C2: when some per-attribute validator reports structured issues during
decode (every earlier validator succeeding), `parseAttributes` throws the
`ValidationFailed` error carrying the issue list, the failure propagates out
of the triggering lifecycle callback as a thrown failure, and nothing is
rendered for that cycle: the element state — in particular its render target
and render roots — is exactly as before the callback. -/
theorem C2_validation_failure_propagates {α : Type}
    (pre post : AttributeSchema α) (key : String) (entry : AttributeSchemaEntry α)
    (issues : List String) (opts : RegisterOptions α) (s : ElementState α)
    (hpre : ∀ p ∈ pre,
      ∃ v, p.2.validate (domGetAttribute s (toKebabCase p.1)) = ValidateResult.success v)
    (hfail : entry.validate (domGetAttribute s (toKebabCase key)) =
      ValidateResult.failure issues) :
    parseAttributes (pre ++ (key, entry) :: post) (domGetAttribute s) =
      .error (.validationFailed issues) ∧
    connectedCallback (pre ++ (key, entry) :: post) opts s =
      (s, some (ParseError.validationFailed issues)) ∧
    (∀ mp, s.mountingPoint = some mp → s.connected = true →
      attributeChangedCallback (pre ++ (key, entry) :: post) s =
        (s, some (ParseError.validationFailed issues))) := by
  have hparse : parseAttributes (pre ++ (key, entry) :: post) (domGetAttribute s) =
      .error (.validationFailed issues) :=
    parseAttributes_append_error _ _ _ _ hpre (by simp [parseAttributes, hfail])
  refine ⟨hparse, ?_, ?_⟩
  · simp [connectedCallback, hparse]
  · intro mp hmp hc
    simp [attributeChangedCallback, hmp, hc, hparse]

/-- Witness for C2: a one-key schema whose validator reports `["boom"]` on a
fresh element. -/
theorem C2_validation_failure_propagates_witness :
    parseAttributes [("bad", alwaysFailEntry)]
        (domGetAttribute (initialElement [] : ElementState String)) =
      .error (.validationFailed ["boom"]) ∧
    connectedCallback [("bad", alwaysFailEntry)] {} (initialElement [] : ElementState String) =
      (initialElement [], some (ParseError.validationFailed ["boom"])) ∧
    (∀ mp, (initialElement [] : ElementState String).mountingPoint = some mp →
      (initialElement [] : ElementState String).connected = true →
      attributeChangedCallback [("bad", alwaysFailEntry)]
          (initialElement [] : ElementState String) =
        (initialElement [], some (ParseError.validationFailed ["boom"]))) := by
  have h := C2_validation_failure_propagates [] [] "bad" alwaysFailEntry ["boom"] {}
    (initialElement [] : ElementState String) (by intro p hp; simp at hp) rfl
  simpa using h

/-- C3: when some validator returns a `Promise` (every earlier validator
succeeding), decode fails synchronously with the
`SynchronousValidationRequired` error thrown from `parseAttributes`, and the
connect callback throws it before any render occurs (the state is untouched);
decode never awaits. -/
theorem C3_async_validator_fails_synchronously {α : Type}
    (pre post : AttributeSchema α) (key : String) (entry : AttributeSchemaEntry α)
    (opts : RegisterOptions α) (s : ElementState α)
    (hpre : ∀ p ∈ pre,
      ∃ v, p.2.validate (domGetAttribute s (toKebabCase p.1)) = ValidateResult.success v)
    (hasync : entry.validate (domGetAttribute s (toKebabCase key)) = ValidateResult.promise) :
    parseAttributes (pre ++ (key, entry) :: post) (domGetAttribute s) =
      .error .synchronousValidationRequired ∧
    connectedCallback (pre ++ (key, entry) :: post) opts s =
      (s, some ParseError.synchronousValidationRequired) := by
  have hparse : parseAttributes (pre ++ (key, entry) :: post) (domGetAttribute s) =
      .error .synchronousValidationRequired :=
    parseAttributes_append_error _ _ _ _ hpre (by simp [parseAttributes, hasync])
  exact ⟨hparse, by simp [connectedCallback, hparse]⟩

/-- Witness for C3: a one-key schema whose validator returns a `Promise`. -/
theorem C3_async_validator_fails_synchronously_witness :
    parseAttributes [("slow", asyncEntry)]
        (domGetAttribute (initialElement [] : ElementState String)) =
      .error .synchronousValidationRequired ∧
    connectedCallback [("slow", asyncEntry)] {} (initialElement [] : ElementState String) =
      (initialElement [], some ParseError.synchronousValidationRequired) := by
  have h := C3_async_validator_fails_synchronously [] [] "slow" asyncEntry {}
    (initialElement [] : ElementState String) (by intro p hp; simp at hp) rfl
  simpa using h

/-- C4: decode reads each raw attribute value under the derived kebab-case
DOM name and hands it to that key's validator unchanged (`none`, i.e.
`undefined`, when the attribute is absent — so schema-level defaults apply);
a successful decode returns exactly one entry per schema key, in order,
holding the validator's output value.  Concretely: an omitted attribute with
default `"Guest"` decodes to `"Guest"`, an omitted attribute with no default
decodes to `undefined`, and a present attribute is passed through as the raw
string. -/
theorem C4_decode_record_shape :
    (∀ (α : Type) (schema : AttributeSchema α) (reader : String → Option String)
        (out : List (String × α)), parseAttributes schema reader = .ok out →
      List.Forall₂ (fun p q => p.1 = q.1 ∧
        p.2.validate (reader (toKebabCase p.1)) = ValidateResult.success q.2) schema out) ∧
    parseAttributes [("firstName", defaultGuestEntry)] (fun _ => none) =
      .ok [("firstName", some "Guest")] ∧
    parseAttributes [("nickName", passThroughEntry)] (fun _ => none) =
      .ok [("nickName", none)] ∧
    parseAttributes [("firstName", defaultGuestEntry)]
        (fun n => if n = "first-name" then some "John" else none) =
      .ok [("firstName", some "John")] := by
  refine ⟨fun α schema reader out h => parseAttributes_ok_forall schema reader out h,
    rfl, rfl, ?_⟩
  have : toKebabCase "firstName" = "first-name" := by decide
  simp [parseAttributes, defaultGuestEntry, this, Except.map]

/-- Witness for C4: the general clause applied to the one-key default
schema with no attributes present. -/
theorem C4_decode_record_shape_witness :
    List.Forall₂ (fun p q => p.1 = q.1 ∧
      p.2.validate ((fun _ => (none : Option String)) (toKebabCase p.1)) =
        ValidateResult.success q.2)
      [("firstName", defaultGuestEntry)] [("firstName", some "Guest")] :=
  C4_decode_record_shape.1 (Option String) [("firstName", defaultGuestEntry)]
    (fun _ => none) [("firstName", some "Guest")] rfl

/-- C6: registering a tag queries the registry first and defines only when
the tag is absent, so a second registration of the same tag is a no-op (the
first wins) and `customElements.define` runs exactly once for tag `"x-y"`
registered twice from an empty registry. -/
theorem C6_register_define_once :
    (∀ (r : Registry) (tag : String),
      registerWebComponent tag (registerWebComponent tag r) = registerWebComponent tag r) ∧
    (∀ (r : Registry) (tag : String), customElementsGet r tag = true →
      registerWebComponent tag r = r) ∧
    (registerWebComponent "x-y"
      (registerWebComponent "x-y" { defined := [], defineCalls := 0 })).defineCalls = 1 := by
  refine ⟨?_, ?_, by decide⟩
  · intro r tag
    by_cases h : customElementsGet r tag = true
    · simp [registerWebComponent, h]
    · have h' : customElementsGet r tag = false := by
        simpa using h
      have hget : customElementsGet (customElementsDefine r tag) tag = true := by
        simp [customElementsGet, customElementsDefine]
      simp [registerWebComponent, h', hget]
  · intro r tag h
    simp [registerWebComponent, h]

/-- Witness for C6: registering an already-defined tag leaves the registry
untouched — no define call. -/
theorem C6_register_define_once_witness :
    registerWebComponent "x-y" { defined := ["x-y"], defineCalls := 1 } =
      { defined := ["x-y"], defineCalls := 1 } :=
  C6_register_define_once.2.1 { defined := ["x-y"], defineCalls := 1 } "x-y" (by decide)

/-- C9: an attribute mutation on an element that is not connected, or whose
mounting point does not exist yet, returns immediately: no decode, no render,
no chained mixin `attributeChangedCallback` — the state is exactly unchanged
and nothing is thrown, even for a schema whose validators would fail. -/
theorem C9_attribute_change_guard {α : Type} (schema : AttributeSchema α)
    (s : ElementState α) (h : s.connected = false ∨ s.mountingPoint = none) :
    attributeChangedCallback schema s = (s, none) := by
  rcases h with h | h
  · simp [attributeChangedCallback, h]
  · simp [attributeChangedCallback, h]

/-- Witness for C9: a disconnected element with a failing validator and the
attribute present — the callback still does nothing and throws nothing. -/
theorem C9_attribute_change_guard_witness :
    attributeChangedCallback [("bad", alwaysFailEntry)]
        (initialElement [("bad", "x")] : ElementState String) =
      (initialElement [("bad", "x")], none) :=
  C9_attribute_change_guard [("bad", alwaysFailEntry)]
    (initialElement [("bad", "x")]) (Or.inl rfl)

/-- C5 counterexample: the shadow-isolation decision is not evaluated only at
the first Connected transition.  An element whose schema decides the shadow
DOM from the `useShadow` attribute connects without the attribute (decision
`false`, no boundary), is disconnected, gets `use-shadow=""` set while
detached, and reconnects: the decision is re-evaluated on the second connect
and a shadow boundary is attached then — after the first Connected
transition. -/
theorem C5_shadow_reconnect_counterexample :
    (hostConnect demoShadowSchema demoShadowOpts
        (initialElement [] : ElementState Bool)).1.shadowRoot = false ∧
    (hostConnect demoShadowSchema demoShadowOpts
        (initialElement [] : ElementState Bool)).1.attachShadowCalls = 0 ∧
    (hostConnect demoShadowSchema demoShadowOpts
      (hostSetAttribute demoShadowSchema "use-shadow" ""
        (hostDisconnect (hostConnect demoShadowSchema demoShadowOpts
          (initialElement [] : ElementState Bool)).1)).1).1.shadowRoot = true ∧
    (hostConnect demoShadowSchema demoShadowOpts
      (hostSetAttribute demoShadowSchema "use-shadow" ""
        (hostDisconnect (hostConnect demoShadowSchema demoShadowOpts
          (initialElement [] : ElementState Bool)).1)).1).1.attachShadowCalls = 1 := by
  refine ⟨rfl, rfl, rfl, rfl⟩

/-- C5 (amended): the shadow-isolation decision is evaluated at every
Connected transition, from the attribute record decoded at that moment
(either a fixed registration boolean or a function of the decoded record,
defaulting to no isolation); attribute changes never add or remove the
isolation boundary or alter the stored decision, and an existing boundary is
never removed — only a later Connected transition whose fresh decision is
true can add one. -/
theorem C5_shadow_decision_every_connect {α : Type} (schema : AttributeSchema α)
    (opts : RegisterOptions α) (s : ElementState α) :
    (∀ parsed, parseAttributes schema (domGetAttribute s) = .ok parsed →
      (hostConnect schema opts s).1.shadowDOM = some (hasShadowDOM opts parsed) ∧
      (hostConnect schema opts s).1.shadowRoot = (s.shadowRoot || hasShadowDOM opts parsed)) ∧
    (∀ name value,
      (hostSetAttribute schema name value s).1.shadowRoot = s.shadowRoot ∧
      (hostSetAttribute schema name value s).1.shadowDOM = s.shadowDOM ∧
      (hostSetAttribute schema name value s).1.attachShadowCalls = s.attachShadowCalls) ∧
    (opts.shadowDOM = none → ∀ parsed, hasShadowDOM opts parsed = false) := by
  refine ⟨?_, ?_, ?_⟩
  · intro parsed h
    have h' : parseAttributes schema
        (domGetAttribute ({ s with connected := true } : ElementState α)) = .ok parsed := h
    rw [hostConnect, connectedCallback_ok schema opts _ parsed h']
    exact ⟨rfl, rfl⟩
  · intro name value
    unfold hostSetAttribute
    dsimp only
    split
    · exact attributeChangedCallback_preserves_shadow schema
        { s with attrs := setAttr s.attrs name value }
    · exact ⟨rfl, rfl, rfl⟩
  · intro h parsed
    simp [hasShadowDOM, h]

/-- Witness for C5 (amended): the per-connect clause applied to the demo
schema on a fresh element without the attribute (decision `false`). -/
theorem C5_shadow_decision_every_connect_witness :
    (hostConnect demoShadowSchema demoShadowOpts
        (initialElement [] : ElementState Bool)).1.shadowDOM =
      some (hasShadowDOM demoShadowOpts [("useShadow", false)]) ∧
    (hostConnect demoShadowSchema demoShadowOpts
        (initialElement [] : ElementState Bool)).1.shadowRoot =
      ((initialElement [] : ElementState Bool).shadowRoot ||
        hasShadowDOM demoShadowOpts [("useShadow", false)]) :=
  (C5_shadow_decision_every_connect demoShadowSchema demoShadowOpts
    (initialElement [])).1 [("useShadow", false)] rfl

/-- C7: connecting a fresh element creates a render root on a fresh mounting
node and renders the decoded record; disconnecting it afterwards performs
exactly one unmount call on that render root; reconnecting (after an
attribute mutation while detached) creates a new render root on a fresh
mounting node, re-renders with the freshly decoded attributes, and reuses a
previously created shadow boundary instead of attaching another one. -/
theorem C7_reconnect_rebuilds_root {α : Type} (schema : AttributeSchema α)
    (opts : RegisterOptions α) (attrs : List (String × String)) (name value : String)
    (p₁ p₂ : List (String × α)) (s₁ s₂ s₃ s₄ : ElementState α)
    (h₁ : parseAttributes schema (fun n => List.lookup n attrs) = .ok p₁)
    (h₂ : parseAttributes schema (fun n => List.lookup n (setAttr attrs name value)) = .ok p₂)
    (e₁ : s₁ = (hostConnect schema opts (initialElement attrs)).1)
    (e₂ : s₂ = hostDisconnect s₁)
    (e₃ : s₃ = (hostSetAttribute schema name value s₂).1)
    (e₄ : s₄ = (hostConnect schema opts s₃).1) :
    s₁.roots = [{ container := 0, renders := [p₁], unmountCount := 0 }] ∧
    s₂.roots = [{ container := 0, renders := [p₁], unmountCount := 1 }] ∧
    s₄.roots = [{ container := 0, renders := [p₁], unmountCount := 1 },
      { container := 2, renders := [p₂], unmountCount := 0 }] ∧
    s₂.mountingPoint = some 0 ∧
    s₄.mountingPoint = some 2 ∧
    (s₁.shadowRoot = true → s₄.shadowRoot = true ∧
      s₄.attachShadowCalls = s₁.attachShadowCalls) := by
  have h₁' : parseAttributes schema
      (domGetAttribute ({ initialElement attrs with connected := true } : ElementState α)) =
      .ok p₁ := h₁
  have hs₁ : s₁ =
      { attrs := attrs, connected := true, nextNodeId := 2,
        mountingPoint := some 0, stylesMountingPoint := some 1,
        roots := [{ container := 0, renders := [p₁], unmountCount := 0 }],
        shadowDOM := some (hasShadowDOM opts p₁), shadowRoot := hasShadowDOM opts p₁,
        attachShadowCalls := if hasShadowDOM opts p₁ then 1 else 0,
        hostChildren := if hasShadowDOM opts p₁ then [] else [1, 0],
        shadowChildren := if hasShadowDOM opts p₁ then [1, 0] else [],
        superConnectedCalls := 1, superDisconnectedCalls := 0,
        superAttributeChangedCalls := 0 } := by
    rw [e₁, hostConnect, connectedCallback_ok schema opts _ p₁ h₁']
    cases hsd₁ : hasShadowDOM opts p₁ <;> simp [initialElement, hsd₁]
  have hs₂ : s₂ =
      { attrs := attrs, connected := false, nextNodeId := 2,
        mountingPoint := some 0, stylesMountingPoint := some 1,
        roots := [{ container := 0, renders := [p₁], unmountCount := 1 }],
        shadowDOM := some (hasShadowDOM opts p₁), shadowRoot := hasShadowDOM opts p₁,
        attachShadowCalls := if hasShadowDOM opts p₁ then 1 else 0,
        hostChildren := if hasShadowDOM opts p₁ then [] else [1, 0],
        shadowChildren := if hasShadowDOM opts p₁ then [1, 0] else [],
        superConnectedCalls := 1, superDisconnectedCalls := 1,
        superAttributeChangedCalls := 0 } := by
    rw [e₂, hs₁]
    simp [hostDisconnect, disconnectedCallback, updateLast]
  have hs₃ : s₃ =
      { attrs := setAttr attrs name value, connected := false, nextNodeId := 2,
        mountingPoint := some 0, stylesMountingPoint := some 1,
        roots := [{ container := 0, renders := [p₁], unmountCount := 1 }],
        shadowDOM := some (hasShadowDOM opts p₁), shadowRoot := hasShadowDOM opts p₁,
        attachShadowCalls := if hasShadowDOM opts p₁ then 1 else 0,
        hostChildren := if hasShadowDOM opts p₁ then [] else [1, 0],
        shadowChildren := if hasShadowDOM opts p₁ then [1, 0] else [],
        superConnectedCalls := 1, superDisconnectedCalls := 1,
        superAttributeChangedCalls := 0 } := by
    rw [e₃, hs₂, hostSetAttribute_disconnected _ _ _ _ rfl]
  have h₂' : parseAttributes schema
      (domGetAttribute
        ({ attrs := setAttr attrs name value, connected := true, nextNodeId := 2,
           mountingPoint := some 0, stylesMountingPoint := some 1,
           roots := [{ container := 0, renders := [p₁], unmountCount := 1 }],
           shadowDOM := some (hasShadowDOM opts p₁), shadowRoot := hasShadowDOM opts p₁,
           attachShadowCalls := if hasShadowDOM opts p₁ then 1 else 0,
           hostChildren := if hasShadowDOM opts p₁ then [] else [1, 0],
           shadowChildren := if hasShadowDOM opts p₁ then [1, 0] else [],
           superConnectedCalls := 1, superDisconnectedCalls := 1,
           superAttributeChangedCalls := 0 } : ElementState α)) = .ok p₂ := h₂
  rw [e₄, hs₃, hs₁, hs₂, hostConnect]
  dsimp only
  rw [connectedCallback_ok schema opts _ p₂ h₂']
  cases hsd₁ : hasShadowDOM opts p₁ <;> cases hsd₂ : hasShadowDOM opts p₂ <;>
    simp [hsd₁, hsd₂]

/-- Witness for C7: the demo boolean-shadow schema on a fresh element —
connect, disconnect, set `use-shadow=""` while detached, reconnect. -/
theorem C7_reconnect_rebuilds_root_witness :
    (hostConnect demoShadowSchema demoShadowOpts
        (initialElement [] : ElementState Bool)).1.roots =
      [{ container := 0, renders := [[("useShadow", false)]], unmountCount := 0 }] ∧
    (hostDisconnect (hostConnect demoShadowSchema demoShadowOpts
        (initialElement [] : ElementState Bool)).1).roots =
      [{ container := 0, renders := [[("useShadow", false)]], unmountCount := 1 }] ∧
    (hostConnect demoShadowSchema demoShadowOpts
      (hostSetAttribute demoShadowSchema "use-shadow" ""
        (hostDisconnect (hostConnect demoShadowSchema demoShadowOpts
          (initialElement [] : ElementState Bool)).1)).1).1.roots =
      [{ container := 0, renders := [[("useShadow", false)]], unmountCount := 1 },
       { container := 2, renders := [[("useShadow", true)]], unmountCount := 0 }] ∧
    (hostDisconnect (hostConnect demoShadowSchema demoShadowOpts
        (initialElement [] : ElementState Bool)).1).mountingPoint = some 0 ∧
    (hostConnect demoShadowSchema demoShadowOpts
      (hostSetAttribute demoShadowSchema "use-shadow" ""
        (hostDisconnect (hostConnect demoShadowSchema demoShadowOpts
          (initialElement [] : ElementState Bool)).1)).1).1.mountingPoint = some 2 ∧
    ((hostConnect demoShadowSchema demoShadowOpts
        (initialElement [] : ElementState Bool)).1.shadowRoot = true →
      (hostConnect demoShadowSchema demoShadowOpts
        (hostSetAttribute demoShadowSchema "use-shadow" ""
          (hostDisconnect (hostConnect demoShadowSchema demoShadowOpts
            (initialElement [] : ElementState Bool)).1)).1).1.shadowRoot = true ∧
      (hostConnect demoShadowSchema demoShadowOpts
        (hostSetAttribute demoShadowSchema "use-shadow" ""
          (hostDisconnect (hostConnect demoShadowSchema demoShadowOpts
            (initialElement [] : ElementState Bool)).1)).1).1.attachShadowCalls =
        (hostConnect demoShadowSchema demoShadowOpts
          (initialElement [] : ElementState Bool)).1.attachShadowCalls) :=
  C7_reconnect_rebuilds_root demoShadowSchema demoShadowOpts [] "use-shadow" ""
    [("useShadow", false)] [("useShadow", true)] _ _ _ _ rfl rfl rfl rfl rfl rfl

/-- C10: `disconnectedCallback` only unmounts the render root: the appended
styles/root nodes stay attached, and the `mountingPoint`,
`stylesMountingPoint` and render-root fields keep their values (only the
unmount count of the current root changes); consequently every (re)connection
appends a fresh styles/root node pair after the existing children, removing
nothing. -/
theorem C10_disconnect_keeps_dom {α : Type} (schema : AttributeSchema α)
    (opts : RegisterOptions α) (s : ElementState α) (parsed : List (String × α))
    (h : parseAttributes schema (domGetAttribute s) = .ok parsed) :
    (hostDisconnect s).mountingPoint = s.mountingPoint ∧
    (hostDisconnect s).stylesMountingPoint = s.stylesMountingPoint ∧
    (hostDisconnect s).hostChildren = s.hostChildren ∧
    (hostDisconnect s).shadowChildren = s.shadowChildren ∧
    (hostDisconnect s).roots.map RootObj.container = s.roots.map RootObj.container ∧
    (hostConnect schema opts s).1.mountingPoint = some s.nextNodeId ∧
    (hostConnect schema opts s).1.stylesMountingPoint = some (s.nextNodeId + 1) ∧
    (hostConnect schema opts s).1.roots =
      s.roots ++ [{ container := s.nextNodeId, renders := [parsed], unmountCount := 0 }] ∧
    ((hostConnect schema opts s).1.shadowRoot = true →
      (hostConnect schema opts s).1.shadowChildren =
        s.shadowChildren ++ [s.nextNodeId + 1, s.nextNodeId] ∧
      (hostConnect schema opts s).1.hostChildren = s.hostChildren) ∧
    ((hostConnect schema opts s).1.shadowRoot = false →
      (hostConnect schema opts s).1.hostChildren =
        s.hostChildren ++ [s.nextNodeId + 1, s.nextNodeId] ∧
      (hostConnect schema opts s).1.shadowChildren = s.shadowChildren) := by
  have h' : parseAttributes schema
      (domGetAttribute ({ s with connected := true } : ElementState α)) = .ok parsed := h
  have hmap : (hostDisconnect s).roots.map RootObj.container =
      s.roots.map RootObj.container := by
    show (updateLast s.roots _).map RootObj.container = s.roots.map RootObj.container
    exact map_updateLast _ _ _ fun x => rfl
  rw [hostConnect, connectedCallback_ok schema opts _ parsed h']
  refine ⟨rfl, rfl, rfl, rfl, hmap, rfl, rfl, rfl, ?_, ?_⟩
  · intro htrue
    have hc : (s.shadowRoot || hasShadowDOM opts parsed) = true := htrue
    simp [hc]
  · intro hfalse
    have hc : (s.shadowRoot || hasShadowDOM opts parsed) = false := hfalse
    simp [hc]

/-- Witness for C10: a fresh element with the one-key default schema and no
shadow DOM option. -/
theorem C10_disconnect_keeps_dom_witness :
    (hostDisconnect (initialElement [] : ElementState (Option String))).mountingPoint =
      (initialElement [] : ElementState (Option String)).mountingPoint ∧
    (hostDisconnect (initialElement [] : ElementState (Option String))).stylesMountingPoint =
      (initialElement [] : ElementState (Option String)).stylesMountingPoint ∧
    (hostDisconnect (initialElement [] : ElementState (Option String))).hostChildren =
      (initialElement [] : ElementState (Option String)).hostChildren ∧
    (hostDisconnect (initialElement [] : ElementState (Option String))).shadowChildren =
      (initialElement [] : ElementState (Option String)).shadowChildren ∧
    (hostDisconnect (initialElement [] : ElementState (Option String))).roots.map
        RootObj.container =
      (initialElement [] : ElementState (Option String)).roots.map RootObj.container ∧
    (hostConnect [("firstName", defaultGuestEntry)] {}
        (initialElement [] : ElementState (Option String))).1.mountingPoint =
      some (initialElement [] : ElementState (Option String)).nextNodeId ∧
    (hostConnect [("firstName", defaultGuestEntry)] {}
        (initialElement [] : ElementState (Option String))).1.stylesMountingPoint =
      some ((initialElement [] : ElementState (Option String)).nextNodeId + 1) ∧
    (hostConnect [("firstName", defaultGuestEntry)] {}
        (initialElement [] : ElementState (Option String))).1.roots =
      (initialElement [] : ElementState (Option String)).roots ++
        [{ container := (initialElement [] : ElementState (Option String)).nextNodeId,
           renders := [[("firstName", some "Guest")]], unmountCount := 0 }] ∧
    ((hostConnect [("firstName", defaultGuestEntry)] {}
        (initialElement [] : ElementState (Option String))).1.shadowRoot = true →
      (hostConnect [("firstName", defaultGuestEntry)] {}
          (initialElement [] : ElementState (Option String))).1.shadowChildren =
        (initialElement [] : ElementState (Option String)).shadowChildren ++
          [(initialElement [] : ElementState (Option String)).nextNodeId + 1,
           (initialElement [] : ElementState (Option String)).nextNodeId] ∧
      (hostConnect [("firstName", defaultGuestEntry)] {}
          (initialElement [] : ElementState (Option String))).1.hostChildren =
        (initialElement [] : ElementState (Option String)).hostChildren) ∧
    ((hostConnect [("firstName", defaultGuestEntry)] {}
        (initialElement [] : ElementState (Option String))).1.shadowRoot = false →
      (hostConnect [("firstName", defaultGuestEntry)] {}
          (initialElement [] : ElementState (Option String))).1.hostChildren =
        (initialElement [] : ElementState (Option String)).hostChildren ++
          [(initialElement [] : ElementState (Option String)).nextNodeId + 1,
           (initialElement [] : ElementState (Option String)).nextNodeId] ∧
      (hostConnect [("firstName", defaultGuestEntry)] {}
          (initialElement [] : ElementState (Option String))).1.shadowChildren =
        (initialElement [] : ElementState (Option String)).shadowChildren) :=
  C10_disconnect_keeps_dom [("firstName", defaultGuestEntry)] {}
    (initialElement []) [("firstName", some "Guest")] rfl

end RegisTagMe
